import Mathlib

/-!
Shallow embedding of the finvarta-whatsapp-service core
(src/recipients.py, src/waha_client.py, src/main.py) and proofs of the
specification claims about it.

Modelling conventions:
* File and network I/O are represented by explicit inputs: the recipients
  file is a list of lines, the Kafka consumer start and fetch are
  `Except`-valued inputs, and the WAHA HTTP send is a function argument.
* The JSON decode / pydantic validation stages of a Kafka record body are
  represented by an inductive describing their observable outcome
  (`DecodedValue`), since the claims do not depend on JSON syntax.
* Python dicts keyed by TopicPartition are association lists with Python
  dict update semantics (replace in place, append new keys at the end).
-/

/-! ## Recipient resolver (src/recipients.py) -/

/-- Python `str.strip`, at the character-list level so that concrete runs
reduce definitionally (core `String.trim` is opaque to kernel reduction). -/
def trimString (s : String) : String :=
  String.mk
    (((s.data.dropWhile Char.isWhitespace).reverse.dropWhile
      Char.isWhitespace).reverse)

/-- Python `str.upper`, at the character-list level. -/
def upperString (s : String) : String :=
  String.mk (s.data.map Char.toUpper)

/-- Python `s.startswith("#")`: the first character is `#`. -/
def startsWithHash (s : String) : Bool :=
  match s.data with
  | [] => false
  | c :: _ => c == '#'

/-- `re.sub(r"\D", "", s)`: keep only the decimal digits of `s`. -/
def stripNonDigits (s : String) : String :=
  String.mk (s.data.filter Char.isDigit)

/-- `number_to_chat_id` from src/recipients.py lines 9-12: strip non-digits,
return `{digits}@c.us` when at least 10 digits remain, else `None`. -/
def number_to_chat_id (number : String) : Option String :=
  let digits := stripNonDigits number
  if digits.length ≥ 10 then some (digits ++ "@c.us") else none

/-- One iteration state of the `load_recipients` loop: the `seen` set is
modelled as a list used only through membership. Mirrors src/recipients.py
lines 31-44. -/
def loadLoop (seen : List String) (result : List String) :
    List String → List String
  | [] => result
  | line :: rest =>
    let l := trimString line
    if l = "" ∨ startsWithHash l then loadLoop seen result rest
    else
      let digits := stripNonDigits l
      if digits.length < 10 then loadLoop seen result rest
      else
        let chat_id := digits ++ "@c.us"
        if chat_id ∈ seen then loadLoop seen result rest
        else loadLoop (chat_id :: seen) (result ++ [chat_id]) rest

/-- `load_recipients` from src/recipients.py lines 15-46, with the file body
already split into lines (the `read_text`/`splitlines` I/O boundary). -/
def load_recipients (lines : List String) : List String :=
  loadLoop [] [] lines

/-- Spec-side description of one line of the recipients file: trim, drop
blank and `#`-comment lines, then normalize with the recipient resolver. -/
def lineToChatId (line : String) : Option String :=
  let l := trimString line
  if l = "" ∨ startsWithHash l then none else number_to_chat_id l

/-- Spec-side first-seen de-duplication, generalized over an initial set of
already-seen values. -/
def dedupSeen (seen : List String) : List String → List String
  | [] => []
  | x :: xs =>
    if x ∈ seen then dedupSeen seen xs else x :: dedupSeen (x :: seen) xs

/-! ## Gateway client readiness gate (src/waha_client.py, send_text_message) -/

/-- The fields of the WAHA session-status JSON that `send_text_message`
consults: `status` (absent key modelled as `none`), the `ready` and
`connected` flags (`.get(_, False)`), and whether the `me` identity field is
present and truthy (`bool(session_status.get("me"))`). -/
structure SessionStatus where
  status : Option String
  ready : Bool
  connected : Bool
  me : Bool
deriving DecidableEq, Repr

/-- `session_status.get("status", "").upper()` (waha_client.py line 73). -/
def sessionStatusValue (s : SessionStatus) : String :=
  upperString (s.status.getD "")

/-- Diagnostic detail carried by the not-ready error message
(waha_client.py lines 87-92): the raw status text (`unknown` when absent),
the ready/connected flags, and whether the identity field was present. -/
structure NotReadyDetail where
  statusText : String
  ready : Bool
  connected : Bool
  hasMe : Bool
deriving DecidableEq, Repr

/-- Failure modes of one `send_text_message` call at the modelled level. -/
inductive SendError where
  | sessionNotReady (d : NotReadyDetail)
  | gatewayError (e : String)
deriving DecidableEq, Repr

/-- Outcome of one `send_text_message` call: whether the actual
`POST /api/sendText` request was issued, and the overall result. -/
structure SendRun where
  requestSent : Bool
  outcome : Except SendError String
deriving Repr

/-- `send_text_message` from src/waha_client.py lines 65-105 at the readiness
gate: branches exactly as lines 79-97 do, issuing the send request (whose
provider-side result is the input `post`) only on the allowed status
combinations, and otherwise failing without sending. -/
def send_text_message (st : SessionStatus) (post : Except String String) :
    SendRun :=
  if sessionStatusValue st = "CONNECTED" ∨ st.ready then
    { requestSent := true, outcome := post.mapError SendError.gatewayError }
  else if sessionStatusValue st = "WORKING" ∧ st.me then
    { requestSent := true, outcome := post.mapError SendError.gatewayError }
  else
    { requestSent := false
      outcome := Except.error (SendError.sessionNotReady
        ⟨st.status.getD "unknown", st.ready, st.connected, st.me⟩) }

/-- Spec-side readiness condition, in the claim's words: status is
`CONNECTED`, or `ready` is true, or status is `WORKING` and the identity
field is present. -/
def readyCondSpec (st : SessionStatus) : Bool :=
  sessionStatusValue st == "CONNECTED" || st.ready ||
    (sessionStatusValue st == "WORKING" && st.me)

/-! ## Batch consumer core (src/main.py, consume_notifications) -/

/-- `aiokafka.structs.TopicPartition` as used for keying the commit
frontier. -/
structure TopicPartition where
  topic : String
  partition : Nat
deriving DecidableEq, Repr

/-- `NotificationPayload` (src/main.py lines 72-77): the pydantic model of a
decoded Kafka message body. -/
structure NotificationPayload where
  company_name : Option String
  pdf_url : Option String
  summary : String
  number : String
deriving DecidableEq, Repr

/-- Observable outcome of the two decode stages run on a non-null record
body (src/main.py lines 406-426): `json.loads` raising (`parseError`),
`NotificationPayload.model_validate` raising (`validationError`, carrying
the `number` and `company_name` entries of the loose dict, absent keys as
`none`, plus the error text), or a well-formed payload. -/
inductive DecodedValue where
  | parseError (e : String)
  | validationError (numberField : Option String) (companyField : Option String)
      (e : String)
  | payload (p : NotificationPayload)
deriving DecidableEq, Repr

/-- One fetched Kafka record: its offset and its value (`none` models a null
`record.value`). -/
structure KafkaRecord where
  offset : Nat
  value : Option DecodedValue
deriving DecidableEq, Repr

/-- `ConsumeResultItem` (src/main.py lines 80-85). -/
structure ConsumeResultItem where
  number : String
  company_name : Option String
  status : String
  error : Option String
deriving DecidableEq, Repr

/-- `ConsumeNotificationsResponse` (src/main.py lines 88-94), minus the
constant `status := "success"` field. -/
structure ConsumeResponse where
  processed : Nat
  failed : Nat
  skipped : Nat
  results : List ConsumeResultItem
deriving DecidableEq, Repr

/-- Python dict lookup `m[tp]` / `tp in m` on the frontier dict. -/
def dictGet : List (TopicPartition × Nat) → TopicPartition → Option Nat
  | [], _ => none
  | (k, v) :: rest, tp => if k = tp then some v else dictGet rest tp

/-- Python dict assignment `m[tp] = v`: replace in place when the key is
present, append otherwise (insertion order preserved). -/
def dictSet : List (TopicPartition × Nat) → TopicPartition → Nat →
    List (TopicPartition × Nat)
  | [], tp, v => [(tp, v)]
  | (k, w) :: rest, tp, v =>
    if k = tp then (k, v) :: rest else (k, w) :: dictSet rest tp v

/-- The frontier-update snippet repeated after each Success/Skipped outcome
(e.g. src/main.py lines 401-403): `next_off = record.offset + 1;
if tp not in last_committable or record.offset == last_committable[tp]:
last_committable[tp] = next_off`. -/
def advanceFrontier (m : List (TopicPartition × Nat)) (tp : TopicPartition)
    (offset : Nat) : List (TopicPartition × Nat) :=
  match dictGet m tp with
  | none => dictSet m tp (offset + 1)
  | some v => if offset = v then dictSet m tp (offset + 1) else m

/-- Mutable state of the consume loop (src/main.py lines 377-382): the
result list, the three counters, and the commit frontier
`last_committable`. -/
structure ConsumeState where
  results : List ConsumeResultItem
  processed : Nat
  failed : Nat
  skipped : Nat
  last_committable : List (TopicPartition × Nat)
deriving DecidableEq, Repr

/-- Initial consume-loop state. -/
def initConsumeState : ConsumeState :=
  { results := [], processed := 0, failed := 0, skipped := 0
    last_committable := [] }

/-- The per-record body of the consume loop (src/main.py lines 396-459),
with the WAHA send modelled by the function argument `send` mapping
`(chat_id, text)` to the call's outcome. Each branch appends one result
item, bumps one counter, and — in the Success and Skipped branches only —
runs the frontier update; the send-failure branch leaves the frontier
untouched. -/
def processRecord (send : String → String → Except String Unit)
    (st : ConsumeState) (tp : TopicPartition) (record : KafkaRecord) :
    ConsumeState :=
  match record.value with
  | none =>
    { st with
      results := st.results ++ [⟨"", none, "skipped", some "null message value"⟩]
      skipped := st.skipped + 1
      last_committable := advanceFrontier st.last_committable tp record.offset }
  | some (DecodedValue.parseError e) =>
    { st with
      results := st.results ++
        [⟨"", none, "skipped", some ("JSON parse error: " ++ e)⟩]
      skipped := st.skipped + 1
      last_committable := advanceFrontier st.last_committable tp record.offset }
  | some (DecodedValue.validationError numberField companyField e) =>
    { st with
      results := st.results ++
        [⟨numberField.getD "", companyField, "skipped", some e⟩]
      skipped := st.skipped + 1
      last_committable := advanceFrontier st.last_committable tp record.offset }
  | some (DecodedValue.payload p) =>
    if trimString p.summary = "" then
      { st with
        results := st.results ++
          [⟨p.number, p.company_name, "skipped", some "empty summary"⟩]
        skipped := st.skipped + 1
        last_committable := advanceFrontier st.last_committable tp record.offset }
    else
      match number_to_chat_id p.number with
      | none =>
        { st with
          results := st.results ++
            [⟨p.number, p.company_name, "skipped", some "invalid number"⟩]
          skipped := st.skipped + 1
          last_committable := advanceFrontier st.last_committable tp record.offset }
      | some chat_id =>
        match send chat_id p.summary with
        | Except.error e =>
          { st with
            results := st.results ++
              [⟨p.number, p.company_name, "error", some e⟩]
            failed := st.failed + 1 }
        | Except.ok _ =>
          { st with
            results := st.results ++
              [⟨p.number, p.company_name, "success", none⟩]
            processed := st.processed + 1
            last_committable := advanceFrontier st.last_committable tp record.offset }

/-- The `max_messages` stop condition (src/main.py line 393):
`max_messages is not None and (processed + failed + skipped) >= max_messages`. -/
def capReached (max_messages : Option Int) (st : ConsumeState) : Bool :=
  match max_messages with
  | none => false
  | some m => decide (((st.processed + st.failed + st.skipped : Nat) : Int) ≥ m)

/-- The consume loop over the sorted record list (src/main.py lines
392-459); the `break` on the cap is the early return. -/
def consumeLoop (send : String → String → Except String Unit)
    (max_messages : Option Int) (st : ConsumeState) :
    List (TopicPartition × KafkaRecord) → ConsumeState
  | [] => st
  | (tp, r) :: rest =>
    if capReached max_messages st then st
    else consumeLoop send max_messages (processRecord send st tp r) rest

/-- Strict-before comparison for the sort key
`(tp.topic, tp.partition, record.offset)` (src/main.py line 390). -/
def recBefore (a b : TopicPartition × KafkaRecord) : Bool :=
  if a.1.topic = b.1.topic then
    if a.1.partition = b.1.partition then decide (a.2.offset < b.2.offset)
    else decide (a.1.partition < b.1.partition)
  else decide (a.1.topic < b.1.topic)

/-- Insert `x` into an already-sorted list, after any element it does not
strictly precede; with a strict comparison this keeps the sort stable, like
Python `list.sort`. -/
def insertSorted (x : TopicPartition × KafkaRecord) :
    List (TopicPartition × KafkaRecord) → List (TopicPartition × KafkaRecord)
  | [] => [x]
  | y :: ys => if recBefore x y then x :: y :: ys else y :: insertSorted x ys

/-- Stable ascending sort of the flattened record list by
`(topic, partition, offset)` (src/main.py line 390). -/
def sortRecs (recs : List (TopicPartition × KafkaRecord)) :
    List (TopicPartition × KafkaRecord) :=
  recs.foldl (fun acc x => insertSorted x acc) []

/-- Flattening of the `getmany` batch dict (src/main.py lines 386-389):
`for tp, lst in batch.items(): for r in lst: recs.append((tp, r))`. -/
def flattenBatch (batch : List (TopicPartition × List KafkaRecord)) :
    List (TopicPartition × KafkaRecord) :=
  batch.foldl (fun acc x => acc ++ x.2.map (fun r => (x.1, r))) []

/-- One invocation of the consume endpoint: the list of commit calls made
(each with the offsets dict passed to `consumer.commit`) and the HTTP
result, an error status code or the response body. -/
structure ConsumeRun where
  commits : List (List (TopicPartition × Nat))
  result : Except Nat ConsumeResponse
deriving Repr

/-- `consume_notifications` (src/main.py lines 350-470). The consumer
start and the `getmany` fetch are modelled by `Except`-valued inputs
(`startR`, `fetchR`); a start failure is the 503 response of lines 370-375,
a failure inside the processing `try` is the 500 response of lines 465-466,
and in both cases no commit call is made. On the normal path the records
are flattened, sorted, processed under the cap, and the frontier is
committed in one call iff it is non-empty (lines 461-462). -/
def consume_notifications (startR : Except String Unit)
    (fetchR : Except String (List (TopicPartition × List KafkaRecord)))
    (send : String → String → Except String Unit)
    (max_messages : Option Int) : ConsumeRun :=
  match startR with
  | Except.error _ => { commits := [], result := Except.error 503 }
  | Except.ok _ =>
    match fetchR with
    | Except.error _ => { commits := [], result := Except.error 500 }
    | Except.ok batch =>
      let recs := sortRecs (flattenBatch batch)
      let st := consumeLoop send max_messages initConsumeState recs
      { commits := if st.last_committable = [] then [] else [st.last_committable]
        result := Except.ok ⟨st.processed, st.failed, st.skipped, st.results⟩ }

/-- The commit frontier a completed normal run ends with: the
`last_committable` dict after the consume loop, `[]` on the error paths. -/
def finalFrontier (startR : Except String Unit)
    (fetchR : Except String (List (TopicPartition × List KafkaRecord)))
    (send : String → String → Except String Unit)
    (max_messages : Option Int) : List (TopicPartition × Nat) :=
  match startR, fetchR with
  | Except.ok _, Except.ok batch =>
    (consumeLoop send max_messages initConsumeState
      (sortRecs (flattenBatch batch))).last_committable
  | _, _ => []

/-! ## Bulk dispatcher (src/main.py, send_bulk) -/

/-- `BulkSendResultItem` (src/main.py lines 57-61). -/
structure BulkSendResultItem where
  chat_id : String
  status : String
  error : Option String
deriving DecidableEq, Repr

/-- `BulkSendResponse` (src/main.py lines 64-69), minus the constant
`status := "success"` field. -/
structure BulkSendResponse where
  sent : Nat
  failed : Nat
  results : List BulkSendResultItem
deriving DecidableEq, Repr

/-- Accumulators of the `send_bulk` loop (src/main.py lines 327-341), plus
an explicit trace of the chat ids passed to `send_text_message`, in call
order. -/
structure BulkState where
  calls : List String
  results : List BulkSendResultItem
  sent : Nat
  failed : Nat
deriving DecidableEq, Repr

/-- One iteration of the `send_bulk` loop (src/main.py lines 330-341): call
the gateway once for `chat_id`, then record success or failure. -/
def bulkStep (send : String → Except String Unit) (st : BulkState)
    (chat_id : String) : BulkState :=
  match send chat_id with
  | Except.ok _ =>
    { calls := st.calls ++ [chat_id]
      results := st.results ++ [⟨chat_id, "success", none⟩]
      sent := st.sent + 1
      failed := st.failed }
  | Except.error e =>
    { calls := st.calls ++ [chat_id]
      results := st.results ++ [⟨chat_id, "error", some e⟩]
      sent := st.sent
      failed := st.failed + 1 }

/-- One invocation of the bulk endpoint: trace of gateway calls and the
HTTP result (error status code or response body). -/
structure BulkRun where
  calls : List String
  result : Except Nat BulkSendResponse
deriving Repr

/-- `send_bulk` (src/main.py lines 310-342) over the resolved recipient
list: an empty list raises the 400 "no valid recipients" error before any
send; otherwise every chat id is sent to in order, with per-recipient
outcomes and counts accumulated. -/
def send_bulk (send : String → Except String Unit) (chat_ids : List String) :
    BulkRun :=
  if chat_ids = [] then { calls := [], result := Except.error 400 }
  else
    let st := chat_ids.foldl (bulkStep send) ⟨[], [], 0, 0⟩
    { calls := st.calls, result := Except.ok ⟨st.sent, st.failed, st.results⟩ }

/-- Spec-side per-recipient outcome of the bulk dispatcher. -/
def bulkItemSpec (send : String → Except String Unit) (chat_id : String) :
    BulkSendResultItem :=
  match send chat_id with
  | Except.ok _ => ⟨chat_id, "success", none⟩
  | Except.error e => ⟨chat_id, "error", some e⟩

/-- Whether one gateway send succeeds. -/
def sendOk (send : String → Except String Unit) (chat_id : String) : Bool :=
  match send chat_id with
  | Except.ok _ => true
  | Except.error _ => false

/-- Spec-side classification of the outcome a record gets from the consume
loop, as the status string of its result item. -/
def recordStatus (send : String → String → Except String Unit)
    (record : KafkaRecord) : String :=
  match record.value with
  | none => "skipped"
  | some (DecodedValue.parseError _) => "skipped"
  | some (DecodedValue.validationError _ _ _) => "skipped"
  | some (DecodedValue.payload p) =>
    if trimString p.summary = "" then "skipped"
    else
      match number_to_chat_id p.number with
      | none => "skipped"
      | some chat_id =>
        match send chat_id p.summary with
        | Except.error _ => "error"
        | Except.ok _ => "success"

/-- The cap bound of claim C10: with no cap the record count bounds itself;
with cap `m` the count is bounded by `max m 0`. -/
def capBound (max_messages : Option Int) (n : Nat) : Int :=
  match max_messages with
  | none => (n : Int)
  | some m => max m 0

/-! ## Concrete fixtures for the scenario claims -/

/-- The topic-partition used by the concrete scenarios. -/
def tpA : TopicPartition := ⟨"notification-payload", 0⟩

/-- A record whose body decodes to a payload with the given number and
summary. -/
def payloadRec (offset : Nat) (number summary : String) : KafkaRecord :=
  ⟨offset, some (DecodedValue.payload ⟨none, none, summary, number⟩)⟩

/-- A gateway that accepts every send. -/
def sendAlwaysOk : String → String → Except String Unit :=
  fun _ _ => Except.ok ()

/-- A gateway that rejects every send with a timeout error. -/
def sendAlwaysFail : String → String → Except String Unit :=
  fun _ _ => Except.error "timeout"

/-- A gateway that rejects sends to one chat id and accepts the rest. -/
def sendFailOnly (bad : String) : String → String → Except String Unit :=
  fun chat_id _ =>
    if chat_id = bad then Except.error "timeout" else Except.ok ()

/-- Decidable equality for `Except`, used to settle concrete run results by
evaluation. -/
instance instDecidableEqExcept {e a : Type} [DecidableEq e] [DecidableEq a] :
    DecidableEq (Except e a) := fun x y =>
  match x, y with
  | Except.error u, Except.error v => decidable_of_iff (u = v) (by simp)
  | Except.error _, Except.ok _ => Decidable.isFalse (fun h => Except.noConfusion h)
  | Except.ok _, Except.error _ => Decidable.isFalse (fun h => Except.noConfusion h)
  | Except.ok u, Except.ok v => decidable_of_iff (u = v) (by simp)

instance instDecidableEqConsumeRun : DecidableEq ConsumeRun := fun x y =>
  decidable_of_iff (x.commits = y.commits ∧ x.result = y.result)
    (by cases x; cases y; simp)

instance instDecidableEqBulkRun : DecidableEq BulkRun := fun x y =>
  decidable_of_iff (x.calls = y.calls ∧ x.result = y.result)
    (by cases x; cases y; simp)

instance instDecidableEqSendRun : DecidableEq SendRun := fun x y =>
  decidable_of_iff (x.requestSent = y.requestSent ∧ x.outcome = y.outcome)
    (by cases x; cases y; simp)

/-! ## Claim theorems -/

/-- C9: on an empty fetch the batch consumer returns
`processed = failed = skipped = 0` with an empty result list and makes no
commit call. -/
theorem consume_empty_fetch_no_commit :
    ∀ (send : String → String → Except String Unit) (mm : Option Int),
    consume_notifications (Except.ok ()) (Except.ok []) send mm =
      { commits := [], result := Except.ok ⟨0, 0, 0, []⟩ } :=
  fun _ _ => rfl

/-- C2: with records at offsets 5, 6, 8 on one partition, offsets 5 and 6
succeeding and the `max_messages = 2` cap stopping processing before
offset 8 is examined, the consumer commits offset 7 (not 9) for that
partition. -/
theorem consume_cap_commits_seven :
    consume_notifications (Except.ok ())
      (Except.ok [(tpA,
        [payloadRec 5 "919920906247" "s1",
         payloadRec 6 "919920906248" "s2",
         payloadRec 8 "919920906249" "s3"])])
      sendAlwaysOk (some 2) =
    { commits := [[(tpA, 7)]]
      result := Except.ok ⟨2, 0, 0,
        [⟨"919920906247", none, "success", none⟩,
         ⟨"919920906248", none, "success", none⟩]⟩ } := by
  decide

/-- Lookup after a dict assignment finds the assigned value. -/
lemma dictGet_dictSet (m : List (TopicPartition × Nat)) (tp : TopicPartition)
    (v : Nat) : dictGet (dictSet m tp v) tp = some v := by
  induction m with
  | nil => simp [dictGet, dictSet]
  | cons hd tl ih =>
    obtain ⟨k, w⟩ := hd
    by_cases h : k = tp
    · simp [dictGet, dictSet, h]
    · simp [dictGet, dictSet, h, ih]

/-- C1 counterexample: a batch with a single record whose send Failed ends
with an empty commit frontier — the claim's rule (the first record touched
per partition advances trivially, Failed included) would require frontier
entry `(tpA, 6)` and hence a commit of `[[(tpA, 6)]]`. -/
theorem consume_failed_send_skips_frontier_cex :
    (consume_notifications (Except.ok ())
        (Except.ok [(tpA, [payloadRec 5 "919920906247" "hello"])])
        sendAlwaysFail none).result =
      Except.ok ⟨0, 1, 0, [⟨"919920906247", none, "error", some "timeout"⟩]⟩
    ∧ (consume_notifications (Except.ok ())
        (Except.ok [(tpA, [payloadRec 5 "919920906247" "hello"])])
        sendAlwaysFail none).commits = []
    ∧ (consume_notifications (Except.ok ())
        (Except.ok [(tpA, [payloadRec 5 "919920906247" "hello"])])
        sendAlwaysFail none).commits ≠ [[(tpA, 6)]] := by
  refine ⟨by decide, by decide, by decide⟩

/-- C1 amended: after every per-record outcome the appended result's status
is the record's classification; after a Success or Skipped outcome the
frontier for that record's partition is advanced to `offset + 1` iff the
offset equals the partition's current frontier (first record touched per
partition advancing trivially), while after a Failed send the frontier is
left unchanged. -/
theorem processRecord_frontier_rule :
    ∀ (send : String → String → Except String Unit) (st : ConsumeState)
      (tp : TopicPartition) (r : KafkaRecord),
    (((processRecord send st tp r).results.getLast?).map
        ConsumeResultItem.status = some (recordStatus send r))
    ∧ ((processRecord send st tp r).last_committable =
        (if recordStatus send r = "error" then st.last_committable
         else advanceFrontier st.last_committable tp r.offset))
    ∧ (∀ (m : List (TopicPartition × Nat)) (off : Nat),
        dictGet (advanceFrontier m tp off) tp =
          (if dictGet m tp = none ∨ dictGet m tp = some off then some (off + 1)
           else dictGet m tp)) := by
  intro send st tp r
  refine ⟨?_, ?_, ?_⟩
  · obtain ⟨off, val⟩ := r
    match val with
    | none => simp [processRecord, recordStatus]
    | some (DecodedValue.parseError e) => simp [processRecord, recordStatus]
    | some (DecodedValue.validationError nf cf e) =>
      simp [processRecord, recordStatus]
    | some (DecodedValue.payload p) =>
      by_cases hs : trimString p.summary = ""
      · simp [processRecord, recordStatus, hs]
      · cases hn : number_to_chat_id p.number with
        | none => simp [processRecord, recordStatus, hs, hn]
        | some cid =>
          cases hsend : send cid p.summary with
          | error e => simp [processRecord, recordStatus, hs, hn, hsend]
          | ok u => simp [processRecord, recordStatus, hs, hn, hsend]
  · obtain ⟨off, val⟩ := r
    match val with
    | none => simp [processRecord, recordStatus]
    | some (DecodedValue.parseError e) => simp [processRecord, recordStatus]
    | some (DecodedValue.validationError nf cf e) =>
      simp [processRecord, recordStatus]
    | some (DecodedValue.payload p) =>
      by_cases hs : trimString p.summary = ""
      · simp [processRecord, recordStatus, hs]
      · cases hn : number_to_chat_id p.number with
        | none => simp [processRecord, recordStatus, hs, hn]
        | some cid =>
          cases hsend : send cid p.summary with
          | error e => simp [processRecord, recordStatus, hs, hn, hsend]
          | ok u => simp [processRecord, recordStatus, hs, hn, hsend]
  · intro m off
    cases hg : dictGet m tp with
    | none => simp [advanceFrontier, hg, dictGet_dictSet]
    | some v =>
      by_cases hv : off = v
      · simp [advanceFrontier, hg, hv, dictGet_dictSet]
      · have hv2 : ¬ (some v = some off) := by
          intro hc
          exact hv (Option.some.injEq v off ▸ hc).symm
        simp [advanceFrontier, hg, hv, hv2]

/-- C3 counterexample: with contiguous offsets 5 (send succeeds),
6 (invalid number, skipped) and 7 (send fails), the batch commits offset 7
for the partition, not 8 — the frontier does not advance past the Failed
record, so it does not advance past all three. -/
theorem consume_mixed_batch_frontier_cex :
    (consume_notifications (Except.ok ())
        (Except.ok [(tpA,
          [payloadRec 5 "919920906247" "s1",
           payloadRec 6 "12345" "s2",
           payloadRec 7 "918888888888" "s3"])])
        (sendFailOnly "918888888888@c.us") none).result =
      Except.ok ⟨1, 1, 1,
        [⟨"919920906247", none, "success", none⟩,
         ⟨"12345", none, "skipped", some "invalid number"⟩,
         ⟨"918888888888", none, "error", some "timeout"⟩]⟩
    ∧ (consume_notifications (Except.ok ())
        (Except.ok [(tpA,
          [payloadRec 5 "919920906247" "s1",
           payloadRec 6 "12345" "s2",
           payloadRec 7 "918888888888" "s3"])])
        (sendFailOnly "918888888888@c.us") none).commits = [[(tpA, 7)]]
    ∧ (consume_notifications (Except.ok ())
        (Except.ok [(tpA,
          [payloadRec 5 "919920906247" "s1",
           payloadRec 6 "12345" "s2",
           payloadRec 7 "918888888888" "s3"])])
        (sendFailOnly "918888888888@c.us") none).commits ≠ [[(tpA, 8)]] := by
  refine ⟨by decide, by decide, by decide⟩

/-- C3 amended: for the batch of 3 contiguous records — success at offset 5,
invalid-number skip at 6, gateway-failure at 7 — the consumer returns
`processed = 1, failed = 1, skipped = 1` with exactly 3 result entries, and
commits offset 7: the frontier advances past the success and the skip but
stops at the Failed record. -/
theorem consume_mixed_batch_counts :
    consume_notifications (Except.ok ())
        (Except.ok [(tpA,
          [payloadRec 5 "919920906247" "s1",
           payloadRec 6 "12345" "s2",
           payloadRec 7 "918888888888" "s3"])])
        (sendFailOnly "918888888888@c.us") none =
      { commits := [[(tpA, 7)]]
        result := Except.ok ⟨1, 1, 1,
          [⟨"919920906247", none, "success", none⟩,
           ⟨"12345", none, "skipped", some "invalid number"⟩,
           ⟨"918888888888", none, "error", some "timeout"⟩]⟩ } := by
  decide

/-- C4: `send_text_message` issues the actual send request iff the session
status is `CONNECTED`, or `ready` is true, or the status is `WORKING` with
the identity (`me`) field present; in every other combination it fails with
a session-not-ready error carrying the diagnostic detail, without sending.
In particular `WORKING` with `me` proceeds and `WORKING` without `me`
fails. -/
theorem send_text_message_readiness_gate :
    ∀ (st : SessionStatus) (post : Except String String),
    ((send_text_message st post).requestSent = readyCondSpec st)
    ∧ ((send_text_message st post).outcome =
        (if readyCondSpec st then post.mapError SendError.gatewayError
         else Except.error (SendError.sessionNotReady
           ⟨st.status.getD "unknown", st.ready, st.connected, st.me⟩)))
    ∧ ((send_text_message ⟨some "WORKING", false, false, true⟩ post).requestSent
        = true)
    ∧ ((send_text_message ⟨some "WORKING", false, false, false⟩ post).requestSent
        = false)
    ∧ ((send_text_message ⟨some "WORKING", false, false, false⟩ post).outcome =
        Except.error (SendError.sessionNotReady
          ⟨"WORKING", false, false, false⟩)) := by
  intro st post
  refine ⟨?_, ?_, rfl, rfl, rfl⟩
  · by_cases h1 : sessionStatusValue st = "CONNECTED" <;>
      by_cases h2 : st.ready = true <;>
        by_cases h3 : sessionStatusValue st = "WORKING" <;>
          by_cases h4 : st.me = true <;>
            simp [send_text_message, readyCondSpec, h1, h2, h3, h4]
  · by_cases h1 : sessionStatusValue st = "CONNECTED" <;>
      by_cases h2 : st.ready = true <;>
        by_cases h3 : sessionStatusValue st = "WORKING" <;>
          by_cases h4 : st.me = true <;>
            simp [send_text_message, readyCondSpec, h1, h2, h3, h4]

/-- C5: the consumer commits at most once per invocation; the commit list is
empty on every error result, and on a normal result it is the final
frontier committed in one call iff that frontier is non-empty. -/
theorem consume_commits_at_most_once :
    ∀ (startR : Except String Unit)
      (fetchR : Except String (List (TopicPartition × List KafkaRecord)))
      (send : String → String → Except String Unit) (mm : Option Int),
    ((consume_notifications startR fetchR send mm).commits.length ≤ 1)
    ∧ ((consume_notifications startR fetchR send mm).commits =
        (match (consume_notifications startR fetchR send mm).result with
         | Except.error _ => []
         | Except.ok _ =>
           if finalFrontier startR fetchR send mm = [] then []
           else [finalFrontier startR fetchR send mm])) := by
  intro startR fetchR send mm
  cases startR with
  | error e => simp [consume_notifications, finalFrontier]
  | ok u =>
    cases fetchR with
    | error e => simp [consume_notifications, finalFrontier]
    | ok batch =>
      by_cases h : (consumeLoop send mm initConsumeState
          (sortRecs (flattenBatch batch))).last_committable = []
      · simp [consume_notifications, finalFrontier, h]
      · simp [consume_notifications, finalFrontier, h]

/-- C6: `number_to_chat_id` keeps only digits, returns `none` exactly when
fewer than 10 digits remain and the canonical `{digits}@c.us` address
otherwise; in particular it maps `+91 9920906247` to `919920906247@c.us`
and `12345` to `none`. -/
theorem number_to_chat_id_normalize :
    ∀ raw : String,
    (number_to_chat_id raw =
      (if (stripNonDigits raw).length < 10 then none
       else some (stripNonDigits raw ++ "@c.us")))
    ∧ ((stripNonDigits raw).data.all Char.isDigit = true)
    ∧ number_to_chat_id "+91 9920906247" = some "919920906247@c.us"
    ∧ number_to_chat_id "12345" = none := by
  intro raw
  refine ⟨?_, ?_, by decide, by decide⟩
  · by_cases h : (stripNonDigits raw).length < 10
    · have h2 : ¬ ((stripNonDigits raw).length ≥ 10) := by omega
      simp [number_to_chat_id, h, h2]
    · have h2 : (stripNonDigits raw).length ≥ 10 := by omega
      simp [number_to_chat_id, h, h2]
  · simp only [stripNonDigits, List.all_eq_true]
    intro c hc
    exact (List.mem_filter.mp hc).2

/-- Loop invariant of `load_recipients`: the loop extends `result` with the
first-seen de-duplication (relative to `seen`) of the normalized non-empty,
non-comment lines. -/
lemma loadLoop_spec (lines : List String) :
    ∀ (seen result : List String),
    loadLoop seen result lines =
      result ++ dedupSeen seen (lines.filterMap lineToChatId) := by
  induction lines with
  | nil => intro seen result; simp [loadLoop, dedupSeen]
  | cons line rest ih =>
    intro seen result
    by_cases h1 : trimString line = "" ∨ startsWithHash (trimString line)
    · simp [loadLoop, lineToChatId, h1, ih]
    · by_cases h2 : (stripNonDigits (trimString line)).length < 10
      · have h3 : number_to_chat_id (trimString line) = none := by
          have h4 : ¬ ((stripNonDigits (trimString line)).length ≥ 10) := by
            omega
          simp [number_to_chat_id, h4]
        simp [loadLoop, lineToChatId, h1, h2, h3, ih]
      · have h3 : number_to_chat_id (trimString line) =
            some (stripNonDigits (trimString line) ++ "@c.us") := by
          have h4 : (stripNonDigits (trimString line)).length ≥ 10 := by omega
          simp [number_to_chat_id, h4]
        by_cases h5 : (stripNonDigits (trimString line) ++ "@c.us") ∈ seen
        · simp [loadLoop, lineToChatId, h1, h2, h3, h5, ih, dedupSeen]
        · simp [loadLoop, lineToChatId, h1, h2, h3, h5, ih, dedupSeen]

/-- C7: recipient-list parsing normalizes each non-empty, non-comment line,
drops lines that fail normalization, and de-duplicates the addresses
preserving first-seen order; on the claim's concrete input it yields
exactly `["919920906247@c.us"]`. -/
theorem load_recipients_dedup :
    (∀ lines : List String,
      load_recipients lines = dedupSeen [] (lines.filterMap lineToChatId))
    ∧ load_recipients ["919920906247", "# comment", "919920906247", "12345"]
        = ["919920906247@c.us"] := by
  refine ⟨?_, by decide⟩
  intro lines
  simpa using loadLoop_spec lines [] []

/-- Loop invariant of `send_bulk`: folding the per-recipient step appends
one call, one result item and one counter bump per chat id, in order. -/
lemma bulkStep_foldl (send : String → Except String Unit) :
    ∀ (l : List String) (st : BulkState),
    l.foldl (bulkStep send) st =
      { calls := st.calls ++ l
        results := st.results ++ l.map (bulkItemSpec send)
        sent := st.sent + (l.filter (fun c => sendOk send c)).length
        failed := st.failed + (l.filter (fun c => ! sendOk send c)).length } := by
  intro l
  induction l with
  | nil => intro st; simp
  | cons c cs ih =>
    intro st
    cases hc : send c with
    | ok u =>
      simp [List.foldl_cons, bulkStep, hc, ih, bulkItemSpec, sendOk,
        List.filter_cons]
      omega
    | error e =>
      simp [List.foldl_cons, bulkStep, hc, ih, bulkItemSpec, sendOk,
        List.filter_cons]
      omega

/-- C8: the bulk dispatcher calls the gateway once per resolved chat id, in
list order, records one Success/Failed item per address without
short-circuiting, returns the success and failure counts, and on an empty
recipient list fails with the distinct 400 condition without calling the
gateway. -/
theorem send_bulk_per_recipient :
    ∀ (send : String → Except String Unit) (chat_ids : List String),
    send_bulk send chat_ids =
      (if chat_ids = [] then { calls := [], result := Except.error 400 }
       else
        { calls := chat_ids
          result := Except.ok
            ⟨(chat_ids.filter (fun c => sendOk send c)).length,
             (chat_ids.filter (fun c => ! sendOk send c)).length,
             chat_ids.map (bulkItemSpec send)⟩ }) := by
  intro send chat_ids
  by_cases h : chat_ids = []
  · simp [send_bulk, h]
  · simp [send_bulk, h, bulkStep_foldl]

/-- Every examined record appends exactly one result item and bumps exactly
one of the three counters. -/
lemma processRecord_one_result (send : String → String → Except String Unit)
    (st : ConsumeState) (tp : TopicPartition) (r : KafkaRecord) :
    (processRecord send st tp r).results.length = st.results.length + 1
    ∧ (processRecord send st tp r).processed + (processRecord send st tp r).failed
        + (processRecord send st tp r).skipped
      = st.processed + st.failed + st.skipped + 1 := by
  obtain ⟨off, val⟩ := r
  match val with
  | none => simp [processRecord]; omega
  | some (DecodedValue.parseError e) => simp [processRecord]; omega
  | some (DecodedValue.validationError nf cf e) => simp [processRecord]; omega
  | some (DecodedValue.payload p) =>
    by_cases hs : trimString p.summary = ""
    · simp [processRecord, hs]; omega
    · cases hn : number_to_chat_id p.number with
      | none => simp [processRecord, hs, hn]; omega
      | some cid =>
        cases hsend : send cid p.summary with
        | error e => simp [processRecord, hs, hn, hsend]; omega
        | ok u => simp [processRecord, hs, hn, hsend]; omega

/-- The consume loop grows the counter sum and the result list in
lock-step. -/
lemma consumeLoop_counts (send : String → String → Except String Unit)
    (mm : Option Int) :
    ∀ (recs : List (TopicPartition × KafkaRecord)) (st : ConsumeState),
    (consumeLoop send mm st recs).processed + (consumeLoop send mm st recs).failed
        + (consumeLoop send mm st recs).skipped + st.results.length
      = st.processed + st.failed + st.skipped
        + (consumeLoop send mm st recs).results.length := by
  intro recs
  induction recs with
  | nil => intro st; simp [consumeLoop]
  | cons hd tl ih =>
    intro st
    obtain ⟨tp, r⟩ := hd
    by_cases hc : capReached mm st = true
    · simp [consumeLoop, hc]
    · have h1 := processRecord_one_result send st tp r
      have h2 := ih (processRecord send st tp r)
      simp [consumeLoop, hc]
      omega

/-- Under a cap `m` the counter sum never exceeds `max m 0`. -/
lemma consumeLoop_cap (send : String → String → Except String Unit) (m : Int) :
    ∀ (recs : List (TopicPartition × KafkaRecord)) (st : ConsumeState),
    (((st.processed + st.failed + st.skipped : Nat) : Int) ≤ max m 0) →
    ((((consumeLoop send (some m) st recs).processed
        + (consumeLoop send (some m) st recs).failed
        + (consumeLoop send (some m) st recs).skipped : Nat) : Int) ≤ max m 0) := by
  intro recs
  induction recs with
  | nil => intro st h; simpa [consumeLoop] using h
  | cons hd tl ih =>
    intro st h
    obtain ⟨tp, r⟩ := hd
    by_cases hc : capReached (some m) st = true
    · simpa [consumeLoop, hc] using h
    · have hlt : ¬ (m ≤ ((st.processed + st.failed + st.skipped : Nat) : Int)) := by
        simpa [capReached] using hc
      have h1 := processRecord_one_result send st tp r
      have hrw : consumeLoop send (some m) st ((tp, r) :: tl)
          = consumeLoop send (some m) (processRecord send st tp r) tl := by
        simp [consumeLoop, hc]
      rw [hrw]
      exact ih (processRecord send st tp r) (by omega)

/-- C10: on every normal completion the three counters sum to the length of
the result list, and with a supplied cap the number of examined records —
the result-list length — never exceeds `max m 0` (so a non-positive cap
examines none). -/
theorem consume_counts_invariant :
    ∀ (startR : Except String Unit)
      (fetchR : Except String (List (TopicPartition × List KafkaRecord)))
      (send : String → String → Except String Unit) (mm : Option Int)
      (resp : ConsumeResponse),
    (consume_notifications startR fetchR send mm).result = Except.ok resp →
    (resp.processed + resp.failed + resp.skipped = resp.results.length
     ∧ ((resp.results.length : Int) ≤ capBound mm resp.results.length)) := by
  intro startR fetchR send mm resp h
  cases startR with
  | error e => simp [consume_notifications] at h
  | ok u =>
    cases fetchR with
    | error e => simp [consume_notifications] at h
    | ok batch =>
      simp only [consume_notifications, Except.ok.injEq] at h
      subst h
      have hcounts := consumeLoop_counts send mm
        (sortRecs (flattenBatch batch)) initConsumeState
      have e1 : initConsumeState.processed = 0 := rfl
      have e2 : initConsumeState.failed = 0 := rfl
      have e3 : initConsumeState.skipped = 0 := rfl
      have e4 : initConsumeState.results.length = 0 := rfl
      rw [e1, e2, e3, e4] at hcounts
      constructor
      · show (consumeLoop send mm initConsumeState
            (sortRecs (flattenBatch batch))).processed
          + (consumeLoop send mm initConsumeState
            (sortRecs (flattenBatch batch))).failed
          + (consumeLoop send mm initConsumeState
            (sortRecs (flattenBatch batch))).skipped
          = (consumeLoop send mm initConsumeState
            (sortRecs (flattenBatch batch))).results.length
        omega
      · cases mm with
        | none =>
          show ((consumeLoop send none initConsumeState
              (sortRecs (flattenBatch batch))).results.length : Int)
            ≤ ((consumeLoop send none initConsumeState
              (sortRecs (flattenBatch batch))).results.length : Int)
          exact le_refl _
        | some m =>
          have hcap := consumeLoop_cap send m
            (sortRecs (flattenBatch batch)) initConsumeState
            (by rw [e1, e2, e3]; simp)
          show ((consumeLoop send (some m) initConsumeState
              (sortRecs (flattenBatch batch))).results.length : Int) ≤ max m 0
          omega

/-- Concrete instance of the C10 invariant: a one-record success run under
cap 5 has counter sum equal to its single result entry and stays within the
cap. -/
theorem consume_counts_invariant_witness :
    ((1 : Nat) + 0 + 0 =
      ([⟨"919920906247", none, "success", none⟩] :
        List ConsumeResultItem).length)
    ∧ (((([⟨"919920906247", none, "success", none⟩] :
        List ConsumeResultItem).length : Nat) : Int) ≤
      capBound (some 5)
        ([⟨"919920906247", none, "success", none⟩] :
          List ConsumeResultItem).length) :=
  consume_counts_invariant (Except.ok ())
    (Except.ok [(tpA, [payloadRec 5 "919920906247" "hello"])])
    sendAlwaysOk (some 5)
    ⟨1, 0, 0, [⟨"919920906247", none, "success", none⟩]⟩ (by decide)
